import Mathlib

/-!
Verification of the Prisma deployment orchestration script
(`scripts/deploy.py`): deterministic address prediction, ordered
deployment with forward references, oracle warm-up, post-deploy wiring
and the time-delayed ownership handover.

The script is shallowly embedded: the deployment plan is a list of
component specifications (constructor-argument lists referring to the
script's local variables), the sequencer is a fold over that list
threading the deployer's transaction counter and the variable
environment, and the surrounding phases are transcribed into an action
trace.  The ledger itself (the EVM, via brownie) is not part of the
repository; it is modelled from the spec as an abstract deterministic
address-assignment function together with a monotone transaction
counter.
-/

namespace PrismaDeploy

/-- Constants from the head of `deploy.py`. -/
def MIN_DEBT : Nat := 1800 * 10 ^ 18

def GAS_COMP : Nat := 200 * 10 ^ 18

def PRISMA_TOTAL_SUPPLY : Nat := 300000000 * 10 ^ 18

/-- The 17 components of the deployment plan, i.e. the local variables
of `main()` that receive a predicted address (lines 84-100) and are then
rebound to a deployed contract (lines 102-145). -/
inductive CName where
  | prismaCore
  | feeReceiver
  | gasPool
  | pricefeed
  | factory
  | liquidationManager
  | tmImpl
  | stImpl
  | locker
  | voter
  | prisma
  | emissions
  | treasury
  | stabilityPool
  | debt
  | borrowerOps
  | boost
  deriving DecidableEq, Fintype, Repr

/-- The nonce offset used for each component in the prediction block of
`main()` (lines 84-100): `prisma_core = deployer.get_deployment_address(nonce)`,
`fee_receiver = ... (nonce + 1)`, and so on. -/
def offsetOf : CName → Nat
  | .prismaCore => 0
  | .feeReceiver => 1
  | .gasPool => 2
  | .pricefeed => 3
  | .factory => 4
  | .liquidationManager => 5
  | .tmImpl => 6
  | .stImpl => 7
  | .locker => 8
  | .voter => 9
  | .prisma => 10
  | .emissions => 11
  | .treasury => 12
  | .stabilityPool => 13
  | .debt => 14
  | .borrowerOps => 15
  | .boost => 16

/-- A constructor argument as written in a `deploy` call of the script:
a reference to one of the plan's local variables, an external address
(deployer, mocks, `ZERO_ADDRESS`), a numeric literal, a list or
pair-list literal, or a string literal. -/
inductive Arg where
  | var (c : CName)
  | ext (s : String)
  | num (n : Nat)
  | nums (l : List Nat)
  | pairs (l : List (Nat × Nat))
  | vests (l : List (String × Nat))
  | str (s : String)
  deriving DecidableEq, Repr

/-- The value a constructor argument resolves to at submission time:
`var` arguments read the current value of the corresponding local
variable, everything else is passed through verbatim. -/
inductive Val where
  | addr (a : Nat)
  | ext (s : String)
  | num (n : Nat)
  | nums (l : List Nat)
  | pairs (l : List (Nat × Nat))
  | vests (l : List (String × Nat))
  | str (s : String)
  deriving DecidableEq, Repr

/-- Resolve one constructor argument against the current variable
environment (the script's local variables). -/
def resolveArg (env : CName → Nat) : Arg → Val
  | .var c => .addr (env c)
  | .ext s => .ext s
  | .num n => .num n
  | .nums l => .nums l
  | .pairs l => .pairs l
  | .vests l => .vests l
  | .str s => .str s

/-- Modelled from the spec: the ledger assigns contract addresses as a
deterministic pure function of the deployer's identity and transaction
counter, and `get_deployment_address` computes that same function.  The
deployer being fixed throughout the run, the function is abstracted as
`F : Nat → Nat` from counter values to addresses; theorems quantify
over it. -/
def predTable (F : Nat → Nat) (n0 : Nat) : CName → Nat :=
  fun c => F (n0 + offsetOf c)

/-- The deployment plan: the 17 `deploy` statements of `main()`
(lines 102-145), in source order, each with its constructor-argument
list exactly as written.  A `.var` argument reads whatever the named
local variable holds at that point: a predicted address if the
component is deployed later, the actual address if earlier. -/
def deployOrder : List (CName × List Arg) :=
  [ (.prismaCore, [.ext "deployer", .var .stabilityPool]),
    (.feeReceiver, [.var .prismaCore]),
    (.gasPool, []),
    (.pricefeed, [.var .prismaCore, .ext "mock_chainlink", .ext "mock_tellor"]),
    (.factory, [.var .prismaCore, .var .debt, .var .stabilityPool, .var .borrowerOps,
      .var .stImpl, .var .tmImpl, .var .liquidationManager]),
    (.liquidationManager, [.var .stabilityPool, .var .factory, .num GAS_COMP]),
    (.tmImpl, [.var .prismaCore, .var .gasPool, .var .debt, .var .borrowerOps,
      .var .treasury, .var .liquidationManager, .num GAS_COMP]),
    (.stImpl, []),
    (.locker, [.var .prismaCore, .var .prisma, .var .voter, .num (10 ^ 18)]),
    (.voter, [.var .prismaCore, .var .locker, .var .treasury]),
    (.prisma, [.var .treasury, .ext "ZERO_ADDRESS", .var .locker, .num PRISMA_TOTAL_SUPPLY]),
    (.emissions, [.var .prismaCore, .var .voter, .var .treasury, .num 26, .num 2, .num 100,
      .pairs [(52, 50), (39, 70), (26, 80), (13, 90)]]),
    (.treasury, [.var .prismaCore, .var .prisma, .var .locker, .var .voter, .var .emissions,
      .var .boost, .var .stabilityPool, .num 26,
      .nums [2250000 * 10 ^ 18, 2250000 * 10 ^ 18, 2250000 * 10 ^ 18, 2250000 * 10 ^ 18],
      .vests [("deployer", 90000000 * 10 ^ 18)]]),
    (.stabilityPool, [.var .prismaCore, .var .debt, .var .treasury, .var .factory,
      .var .liquidationManager]),
    (.debt, [.str "acUSD", .str "acUSD", .var .stabilityPool, .var .borrowerOps,
      .var .prismaCore, .ext "ZERO_ADDRESS", .var .factory, .var .gasPool, .num GAS_COMP]),
    (.borrowerOps, [.var .prismaCore, .var .debt, .var .factory, .num MIN_DEBT, .num GAS_COMP]),
    (.boost, [.var .prismaCore, .var .locker, .num 10]) ]

/-- Rebind one local variable of the script (the assignment
`name = Contract.deploy(...)` overwriting the predicted address with
the deployed contract's actual address). -/
def setVar (env : CName → Nat) (c : CName) (v : Nat) : CName → Nat :=
  fun x => if x = c then v else env x

/-- The record of one submitted creation transaction: its position in
the plan, the component, the constructor arguments as resolved at
submission time, and the actual address the ledger assigned (`none`
when the ledger rejected the transaction). -/
structure Entry where
  idx : Nat
  name : CName
  args : List Val
  actual : Option Nat
  deriving DecidableEq, Repr

/-- The deployment sequencer: executes the plan one creation
transaction per step against the ledger.  `F` is the ledger's address
assignment, `rej i` tells whether the ledger rejects the `i`-th
creation (a rejected transaction raises in brownie, so the script stops
there: no later step runs and nothing is retried), `i` is the current
plan position, `m` the ledger's current transaction counter for the
deployer, and `env` the script's local variables.  Returns the log of
submitted creations and, when the run completes, the final variable
environment. -/
def runSteps (F : Nat → Nat) (rej : Nat → Bool) :
    List (CName × List Arg) → Nat → Nat → (CName → Nat) →
    List Entry × Option (CName → Nat)
  | [], _, _, env => ([], some env)
  | (c, args) :: rest, i, m, env =>
    let resolved := args.map (resolveArg env)
    if rej i then
      ([⟨i, c, resolved, none⟩], none)
    else
      let actual := F m
      let next := runSteps F rej rest (i + 1) (m + 1) (setVar env c actual)
      (⟨i, c, resolved, some actual⟩ :: next.1, next.2)

/-- The script's deployment phase as run by `main()`: the prediction
table is computed from the nonce `n0` read at line 82, and the plan is
executed starting from ledger counter `m0` (equal to `n0` in the real
run; keeping it separate expresses interleaved-transaction drift). -/
def mainRun (F : Nat → Nat) (rej : Nat → Bool) (n0 m0 : Nat) :
    List Entry × Option (CName → Nat) :=
  runSteps F rej deployOrder 0 m0 (predTable F n0)

/-- The timestamp `main()` mines at line 72:
`(chain.time() // 604800 + 1) * 604800`. -/
def alignedStart (t : Nat) : Nat :=
  (t / 604800 + 1) * 604800

/-- Modelled from the spec: the mock price feed (`MockAggregator`, not
part of this repository).  Its setters store the written fields and
`latestRoundData` returns the latest ones; the previous round lives in
the `prev*` slots. -/
structure MockAggregator where
  answer : Int
  roundId : Nat
  updatedAt : Nat
  prevAnswer : Int
  prevRoundId : Nat
  prevUpdatedAt : Nat
  deriving DecidableEq, Repr

/-- One warm-up write, transcribing `update_chainlink(mock_chainlink, price)`
(lines 50-59): read the latest round, shift it into the previous slot,
then write update time `chain.time()`, price `price * 10**8` and round
id `roundId + 1`, and finally `chain.sleep(10)`.  Takes and returns the
simulated clock. -/
def update_chainlink (st : MockAggregator) (t : Nat) (price : Int) :
    MockAggregator × Nat :=
  let st1 := { st with
    prevAnswer := st.answer
    prevRoundId := st.roundId
    prevUpdatedAt := st.updatedAt }
  let st2 := { st1 with
    updatedAt := t
    answer := price * 10 ^ 8
    roundId := st.roundId + 1 }
  (st2, t + 10)

/-- The state of the feed and the clock after `n` iterations of the
warm-up loop `for i in range(3): update_chainlink(mock_chainlink, 1000)`
(lines 76-78). -/
def warmupRun (st : MockAggregator) (t : Nat) : Nat → MockAggregator × Nat
  | 0 => (st, t)
  | n + 1 =>
    let p := warmupRun st t n
    update_chainlink p.1 p.2 1000

/-- Modelled from the spec: the ownership-handover state machine of the
administrative root component (`PrismaCore`, not part of this
repository).  `Uncommitted → Committed → Accepted`, with `Accepted`
terminal. -/
inductive OwnerState where
  | uncommitted
  | committed (newOwner : Nat) (commitTime : Nat)
  | accepted (owner : Nat)
  deriving DecidableEq, Repr

/-- Modelled from the spec: the governance component's handover
configuration, with its mandatory minimum delay. -/
structure Handover where
  minimumDelay : Nat
  state : OwnerState
  deriving DecidableEq, Repr

/-- Modelled from the spec: `commitTransferOwnership(newOwner)` records
the proposed owner and the current time and moves to `Committed`;
re-committing overwrites the pending proposal, and committing after
acceptance is a no-op (the deployer no longer controls the state). -/
def commitTransferOwnership (h : Handover) (newOwner now : Nat) : Handover :=
  match h.state with
  | .accepted _ => h
  | _ => { h with state := .committed newOwner now }

/-- Modelled from the spec: `acceptTransferOwnership()` is valid only
from `Committed` and only when `now ≥ commitTime + minimumDelay`;
it fails with no state change otherwise. -/
def acceptTransferOwnership (h : Handover) (now : Nat) : Option Handover :=
  match h.state with
  | .committed newOwner commitTime =>
    if commitTime + h.minimumDelay ≤ now then
      some { h with state := .accepted newOwner }
    else
      none
  | _ => none

/-- The handover tail of `main()` (lines 153-156): commit to the new
owner at time `t`, `chain.sleep(86400 * 3 + 1)`, then accept. -/
def handoverRun (delay : Nat) (newOwner t : Nat) : Option Handover :=
  let h0 : Handover := ⟨delay, .uncommitted⟩
  let h1 := commitTransferOwnership h0 newOwner t
  acceptTransferOwnership h1 (t + (86400 * 3 + 1))

/-- One observable operation of the script, in submission order: mining
a block at a timestamp, sleeping the simulated clock, a contract
creation transaction from the deployer, a contract method-call
transaction from the deployer, or the read of the deployer's nonce at
line 82.  (`get_deployment_address` is a pure computation and submits
nothing.) -/
inductive Action where
  | mine (timestamp : Nat)
  | sleep (d : Nat)
  | creation (contract : String)
  | call (target method : String)
  | readNonce
  deriving DecidableEq, BEq, Repr

/-- The brownie contract class deployed for each plan component. -/
def contractOf : CName → String
  | .prismaCore => "PrismaCore"
  | .feeReceiver => "FeeReceiver"
  | .gasPool => "GasPool"
  | .pricefeed => "PriceFeed"
  | .factory => "Factory"
  | .liquidationManager => "LiquidationManager"
  | .tmImpl => "TroveManager"
  | .stImpl => "SortedTroves"
  | .locker => "TokenLocker"
  | .voter => "IncentiveVoting"
  | .prisma => "PrismaToken"
  | .emissions => "EmissionSchedule"
  | .treasury => "PrismaTreasury"
  | .stabilityPool => "StabilityPool"
  | .debt => "DebtToken"
  | .borrowerOps => "BorrowerOperations"
  | .boost => "BoostCalculator"

/-- The transactions and clock operations of one call of
`update_chainlink` (lines 50-59): six setter calls on the mock feed,
each a transaction from the default (deployer) account, then
`chain.sleep(10)`. -/
def updateChainlinkTrace : List Action :=
  [ .call "mock_chainlink" "setPrevPrice",
    .call "mock_chainlink" "setPrevRoundId",
    .call "mock_chainlink" "setPrevUpdateTime",
    .call "mock_chainlink" "setUpdateTime",
    .call "mock_chainlink" "setPrice",
    .call "mock_chainlink" "setLatestRoundId",
    .sleep 10 ]

/-- The full operation trace of `main()` (lines 70-156), in source
order, for a run starting at chain time `t`: mine to the aligned
timestamp, deploy `MockAggregator`, three warm-up iterations, deploy
`MockTellor`, read the deployer's nonce, the 17 planned creations, the
two wiring calls, the helper and governance deployments, and the
commit-sleep-accept handover tail. -/
def mainTrace (t : Nat) : List Action :=
  [.mine (alignedStart t), .creation "MockAggregator"]
  ++ (List.replicate 3 updateChainlinkTrace).flatten
  ++ [.creation "MockTellor", .readNonce]
  ++ deployOrder.map (fun p => .creation (contractOf p.1))
  ++ [ .call "prisma_core" "setPriceFeed",
       .call "prisma_core" "setFeeReceiver",
       .creation "MultiCollateralHintHelpers",
       .creation "AdminVoting",
       .call "prisma_core" "commitTransferOwnership",
       .sleep (86400 * 3 + 1),
       .call "owner" "acceptTransferOwnership" ]

/-- Whether an action is a transaction from the deployer account (every
creation and every method call in the script is sent by `accounts[0]`,
so each increments the deployer's nonce). -/
def isTx : Action → Bool
  | .creation _ => true
  | .call _ _ => true
  | _ => false

/-- Whether an action is one of the warm-up or mock-deployment
transactions preceding the nonce read. -/
def isMockSetup : Action → Bool
  | .creation c => c == "MockAggregator" || c == "MockTellor"
  | .call tgt _ => tgt == "mock_chainlink"
  | _ => false

/-- Whether an action is one of the 17 planned creation transactions. -/
def isPlanCreation : Action → Bool
  | .creation c => (deployOrder.map (fun p => contractOf p.1)).contains c
  | _ => false

/-- Whether an action is one of the two wiring calls
(`setPriceFeed`, `setFeeReceiver`). -/
def isWiring : Action → Bool
  | .call _ m => m == "setPriceFeed" || m == "setFeeReceiver"
  | _ => false

/-- The phase an action belongs to, following the spec's control-flow
decomposition: 0 clock alignment, 1 oracle warm-up and mock deploys,
2 nonce read (address-prediction phase), 3 planned creations, 4 wiring
calls, 5 auxiliary deployments, 6 ownership handover. -/
def phase : Action → Nat
  | .mine _ => 0
  | .sleep d => if d = 10 then 1 else 6
  | .creation c =>
    if c == "MockAggregator" || c == "MockTellor" then 1
    else if c == "MultiCollateralHintHelpers" || c == "AdminVoting" then 5
    else 3
  | .call _ m =>
    if m == "setPriceFeed" || m == "setFeeReceiver" then 4
    else if m == "commitTransferOwnership" || m == "acceptTransferOwnership" then 6
    else 1
  | .readNonce => 2

end PrismaDeploy

namespace PrismaDeploy

/-- The position of a component in the deployment plan (the order of the
`deploy` statements). -/
def planIdx (c : CName) : Nat :=
  (deployOrder.map Prod.fst).indexOf c

/-- C10: the first action of the run mines to timestamp
`(t / 604800 + 1) * 604800`, which for every current time `t` is an
exact multiple of a week (604800 s), strictly greater than `t`, and at
most `t + 604800` — the deployment starts from a week-aligned time. -/
theorem alignedStart_week_boundary (t : Nat) :
    (mainTrace t).head? = some (.mine (alignedStart t)) ∧
    604800 ∣ alignedStart t ∧
    t < alignedStart t ∧
    alignedStart t ≤ t + 604800 := by
  refine ⟨rfl, ⟨t / 604800 + 1, (Nat.mul_comm _ _)⟩, ?_, ?_⟩ <;>
    · unfold alignedStart
      omega

/-- C5: after the three warm-up iterations at price 1000, the feed's
latest round id is the starting round id plus 3, the latest answer is
the last configured price `1000 * 10^8`, the three written rounds have
round ids increasing by exactly 1 and update times increasing by the
fixed 10-second sleep, and before each write the former latest round
has been shifted into the previous-round slot. -/
theorem warmup_three_rounds (st : MockAggregator) (t : Nat) :
    ((warmupRun st t 3).1.roundId = st.roundId + 3 ∧
     (warmupRun st t 3).1.answer = 1000 * 10 ^ 8 ∧
     (warmupRun st t 3).2 = t + 30) ∧
    ((warmupRun st t 1).1.roundId = st.roundId + 1 ∧
     (warmupRun st t 2).1.roundId = st.roundId + 2 ∧
     (warmupRun st t 1).1.updatedAt = t ∧
     (warmupRun st t 2).1.updatedAt = t + 10 ∧
     (warmupRun st t 3).1.updatedAt = t + 20) ∧
    ((warmupRun st t 1).1.prevAnswer = st.answer ∧
     (warmupRun st t 1).1.prevRoundId = st.roundId ∧
     (warmupRun st t 1).1.prevUpdatedAt = st.updatedAt ∧
     (warmupRun st t 2).1.prevAnswer = (warmupRun st t 1).1.answer ∧
     (warmupRun st t 2).1.prevRoundId = (warmupRun st t 1).1.roundId ∧
     (warmupRun st t 2).1.prevUpdatedAt = (warmupRun st t 1).1.updatedAt ∧
     (warmupRun st t 3).1.prevAnswer = (warmupRun st t 2).1.answer ∧
     (warmupRun st t 3).1.prevRoundId = (warmupRun st t 2).1.roundId ∧
     (warmupRun st t 3).1.prevUpdatedAt = (warmupRun st t 2).1.updatedAt) := by
  simp [warmupRun, update_chainlink]

/-- C6: the handover is two-phase and time-gated: after the single
commit at time `t` and the `86400 * 3 + 1` second sleep, the accept is
evaluated at a time that has passed the minimum delay, succeeds, and
leaves the transfer in the terminal `Accepted` state for the proposed
owner; the trace ends with exactly commit, sleep, accept, and the
commit call appears exactly once in the whole run. -/
theorem handover_two_phase (delay newOwner t u : Nat)
    (hdelay : delay ≤ 86400 * 3 + 1) :
    handoverRun delay newOwner t = some ⟨delay, .accepted newOwner⟩ ∧
    t + delay ≤ t + (86400 * 3 + 1) ∧
    (mainTrace u).countP
      (fun a => a == .call "prisma_core" "commitTransferOwnership") = 1 ∧
    (mainTrace u).drop 46 =
      [ .call "prisma_core" "commitTransferOwnership",
        .sleep (86400 * 3 + 1),
        .call "owner" "acceptTransferOwnership" ] := by
  refine ⟨?_, by omega, rfl, rfl⟩
  simp only [handoverRun, commitTransferOwnership, acceptTransferOwnership]
  rw [if_pos (by omega)]

/-- Witness for `handover_two_phase` at delay 259200 (three days). -/
theorem handover_two_phase_witness :
    handoverRun 259200 7 100 = some ⟨259200, .accepted 7⟩ ∧
    100 + 259200 ≤ 100 + (86400 * 3 + 1) ∧
    (mainTrace 0).countP
      (fun a => a == .call "prisma_core" "commitTransferOwnership") = 1 ∧
    (mainTrace 0).drop 46 =
      [ .call "prisma_core" "commitTransferOwnership",
        .sleep (86400 * 3 + 1),
        .call "owner" "acceptTransferOwnership" ] :=
  handover_two_phase 259200 7 100 0 (by decide)

/-- C1: for every offset `k < 17`, the `k`-th creation transaction of
the plan (submitted with no interleaving transaction, the ledger counter
starting at the nonce `n0` the script read) is assigned exactly the
address predicted from `n0 + k`; and the 17 `deploy` statements run in
exactly the order of the prediction table, the `k`-th deployed component
being the one whose predicted address used offset `k`. -/
theorem prediction_matches_creation (F : Nat → Nat) (n0 : Nat) (k : Fin 17) :
    ∃ e, (mainRun F (fun _ => false) n0 n0).1[k.1]? = some e ∧
      e.idx = k.1 ∧
      e.name = (deployOrder.get (Fin.cast (by rfl) k)).1 ∧
      offsetOf e.name = k.1 ∧
      e.actual = some (F (n0 + k.1)) ∧
      e.actual = some (predTable F n0 e.name) := by
  fin_cases k <;> exact ⟨_, rfl, rfl, rfl, rfl, rfl, rfl⟩

/-- C3: at every step `i` of the plan, no constructor argument refers to
the component being deployed itself, and the argument list submitted for
step `i` resolves each referenced component to its actual address
`F (m0 + planIdx c)` when it was deployed at an earlier position, and to
its predicted address `predTable F n0 c` when it comes at a strictly
later position (`m0` being the ledger counter at the first creation,
kept distinct from the read nonce `n0` so that the two notions differ). -/
theorem forward_backward_references (F : Nat → Nat) (n0 m0 : Nat) (i : Fin 17) :
    (∀ c : CName, Arg.var c ∈ (deployOrder.get (Fin.cast (by rfl) i)).2 →
      planIdx c ≠ i.1) ∧
    ∃ e, (mainRun F (fun _ => false) n0 m0).1[i.1]? = some e ∧
      e.args = ((deployOrder.get (Fin.cast (by rfl) i)).2).map
        (resolveArg (fun c =>
          if planIdx c < i.1 then F (m0 + planIdx c) else predTable F n0 c)) := by
  fin_cases i <;> exact ⟨by decide, _, rfl, rfl⟩

/-- Witness for `forward_backward_references`: the `Factory` deployment
(step 4) references the debt token, which sits at a later plan
position. -/
theorem forward_backward_references_witness :
    planIdx CName.debt ≠ 4 :=
  (forward_backward_references (fun n => n) 0 0 ⟨4, by decide⟩).1
    CName.debt (by decide)

/-- C2 counterexample: with the ledger counter drifted by one
interleaved transaction (nonce read as 0, counter actually 1, address
function the identity), the first creation gets actual address 1 while
its prediction is 0, yet the run submits all 17 creations: the script
has no predicted-versus-actual equality check and never aborts on
mismatch. -/
theorem mismatch_does_not_abort :
    ∃ e, (mainRun (fun n => n) (fun _ => false) 0 1).1[0]? = some e ∧
      e.actual ≠ some (predTable (fun n => n) 0 e.name) ∧
      (mainRun (fun n => n) (fun _ => false) 0 1).1.length = 17 := by
  refine ⟨_, rfl, ?_, rfl⟩
  decide

/-- C2 (amended): after each creation the script only rebinds the local
variable to the actual address; it performs no comparison with the
prediction, so whatever addresses the ledger assigns, all 17 creations
are submitted in order and the final environment holds each component's
actual address. -/
theorem creations_never_checked (F : Nat → Nat) (n0 m0 : Nat) :
    (mainRun F (fun _ => false) n0 m0).1.length = 17 ∧
    (∀ k : Fin 17, ∃ e, (mainRun F (fun _ => false) n0 m0).1[k.1]? = some e ∧
      e.actual = some (F (m0 + k.1))) ∧
    ∃ env, (mainRun F (fun _ => false) n0 m0).2 = some env ∧
      ∀ c, env c = F (m0 + planIdx c) := by
  refine ⟨rfl, fun k => ?_, _, rfl, fun c => ?_⟩
  · fin_cases k <;> exact ⟨_, rfl, rfl⟩
  · cases c <;> rfl

/-- If the ledger first rejects at offset `k` from the current position
`i`, the sequencer submits exactly the creations at positions
`i, i+1, ..., i+k` and then stops with no final environment. -/
theorem runSteps_first_rejection (F : Nat → Nat) (rej : Nat → Bool) :
    ∀ (plan : List (CName × List Arg)) (i m : Nat) (env : CName → Nat) (k : Nat),
      k < plan.length →
      (∀ j, j < k → rej (i + j) = false) →
      rej (i + k) = true →
      (runSteps F rej plan i m env).1.map Entry.idx = List.range' i (k + 1) ∧
      (runSteps F rej plan i m env).2 = none := by
  intro plan
  induction plan with
  | nil =>
    intro i m env k hk hfirst hrej
    exact absurd hk (by simp)
  | cons hd tl ih =>
    intro i m env k hk hfirst hrej
    obtain ⟨c, args⟩ := hd
    match k with
    | 0 =>
      have h0 : rej i = true := by simpa using hrej
      simp [runSteps, h0, List.range']
    | k + 1 =>
      have h0 : rej i = false := by simpa using hfirst 0 (Nat.succ_pos k)
      have hrec := ih (i + 1) (m + 1) (setVar env c (F m)) k
        (by simpa using hk)
        (fun j hj => by
          have hj1 := hfirst (j + 1) (by omega)
          have he : i + (j + 1) = i + 1 + j := by omega
          rwa [he] at hj1)
        (by
          have he : i + (k + 1) = i + 1 + k := by omega
          rwa [he] at hrej)
      have hr : List.range' i (k + 1 + 1) = i :: List.range' (i + 1) (k + 1) :=
        List.range'_succ i (k + 1) 1
      simp [runSteps, h0, hrec.1, hrec.2, hr]

/-- C7: if the ledger rejects the creation transaction of step `k` of
the plan (the earlier steps having been accepted), the run stops there:
the submitted creations are exactly steps `0..k`, in order, each
submitted exactly once — so no creation for any step `k+1..16` is ever
submitted and the rejected creation is not retried — and the sequencer
produces no final environment. -/
theorem rejection_stops_plan (F : Nat → Nat) (rej : Nat → Bool) (n0 m0 k : Nat)
    (hk : k < 17)
    (hfirst : ∀ j, j < k → rej j = false)
    (hrej : rej k = true) :
    (mainRun F rej n0 m0).1.map Entry.idx = List.range (k + 1) ∧
    ((mainRun F rej n0 m0).1.map Entry.idx).Nodup ∧
    (∀ e ∈ (mainRun F rej n0 m0).1, e.idx ≤ k) ∧
    (mainRun F rej n0 m0).2 = none := by
  have hlen : k < deployOrder.length := by
    have h17 : deployOrder.length = 17 := rfl
    omega
  have h := runSteps_first_rejection F rej deployOrder 0 m0 (predTable F n0) k
    hlen (fun j hj => by simpa using hfirst j hj) (by simpa using hrej)
  have hmap : (mainRun F rej n0 m0).1.map Entry.idx = List.range (k + 1) := by
    rw [List.range_eq_range']
    exact h.1
  refine ⟨hmap, by rw [hmap]; exact List.nodup_range _, ?_, h.2⟩
  intro e he
  have hm : e.idx ∈ List.range (k + 1) :=
    hmap ▸ List.mem_map_of_mem Entry.idx he
  have := List.mem_range.mp hm
  omega

/-- Witness for `rejection_stops_plan`: the ledger rejects the very
first creation, so only step 0 is ever submitted. -/
theorem rejection_stops_plan_witness :
    (mainRun (fun n => n) (fun _ => true) 0 0).1.map Entry.idx = List.range 1 ∧
    ((mainRun (fun n => n) (fun _ => true) 0 0).1.map Entry.idx).Nodup ∧
    (∀ e ∈ (mainRun (fun n => n) (fun _ => true) 0 0).1, e.idx ≤ 0) ∧
    (mainRun (fun n => n) (fun _ => true) 0 0).2 = none :=
  rejection_stops_plan (fun n => n) (fun _ => true) 0 0 0 (by decide)
    (fun j hj => absurd hj (Nat.not_lt_zero j)) rfl

/-- C4: the phases of `main()` run in a fixed order with no overlap:
clock alignment, then oracle warm-up (with the mock deployments), then
the nonce read feeding the prediction table, then the 17 planned
creations, then the wiring calls, then the auxiliary deployments, and
the ownership handover last — the phase labels along the trace are
monotone (pairwise ordered), and every phase actually occurs. -/
theorem phases_in_order (t : Nat) :
    ((mainTrace t).map phase).Pairwise (· ≤ ·) ∧
    ∀ p : Fin 7, (p : Nat) ∈ (mainTrace t).map phase := by
  have h : (mainTrace t).map phase =
      [0] ++ List.replicate 23 1 ++ [2] ++ List.replicate 17 3 ++
        [4, 4, 5, 5, 6, 6, 6] := rfl
  rw [h]
  exact ⟨by decide, by decide⟩

/-- C8: each wiring call is submitted exactly once for its
(target, method) pair; before the first wiring call all 17 planned
creations have already been submitted and no planned creation occurs at
or after it; and the wiring target `prisma_core` holds the actual
on-ledger address assigned at the first creation (ledger counter `m0`),
not a stale prediction. -/
theorem wiring_once_after_creations (t : Nat) (F : Nat → Nat) (n0 m0 : Nat) :
    (mainTrace t).countP
      (fun a => a == .call "prisma_core" "setPriceFeed") = 1 ∧
    (mainTrace t).countP
      (fun a => a == .call "prisma_core" "setFeeReceiver") = 1 ∧
    ((mainTrace t).takeWhile (fun a => !(isWiring a))).countP isPlanCreation
      = 17 ∧
    ((mainTrace t).dropWhile (fun a => !(isWiring a))).countP isPlanCreation
      = 0 ∧
    ∃ env, (mainRun F (fun _ => false) n0 m0).2 = some env ∧
      env CName.prismaCore = F m0 :=
  ⟨rfl, rfl, rfl, rfl, _, rfl, rfl⟩

/-- C9: the deployer's nonce is read only after the 20 warm-up and
mock-deployment transactions (all of which increment the counter) have
completed — every transaction before the read targets the mocks and no
mock transaction follows the read — and the seventeen actions
immediately following the read are exactly the 17 planned creations, so
no other deployer transaction is interleaved between the nonce read and
the 17th planned creation. -/
theorem nonce_read_isolated (t : Nat) :
    ((mainTrace t).takeWhile (fun a => !(a == Action.readNonce))).countP isTx
      = 20 ∧
    ((mainTrace t).takeWhile (fun a => !(a == Action.readNonce))).countP
      (fun a => isTx a && !(isMockSetup a)) = 0 ∧
    ((mainTrace t).dropWhile (fun a => !(a == Action.readNonce))).countP
      isMockSetup = 0 ∧
    ((mainTrace t).dropWhile (fun a => !(a == Action.readNonce))).tail.take 17
      = deployOrder.map (fun p => .creation (contractOf p.1)) :=
  ⟨rfl, rfl, rfl, rfl⟩

end PrismaDeploy
